import Mathlib

/-!
Shallow embedding of the Starman preforking server core
(`path/to/starman/server.py`, `path/to/starman/worker.py`, `path/to/starman/cli.py`)
and proofs of the specification claims about it.

Conventions: Python bytes/str values are modelled as Lean `String` (with the
string operations the code uses re-implemented by structural recursion over
the character list, so that they evaluate), process identifiers and file
descriptors as `Nat`, and the Python `int` as `Int` where it can go negative.
Each definition is translated from the named source function.
-/

namespace Starman

/-- The byte pair CR LF used as the line separator on the wire. -/
def crlf : String := "\r\n"

/-- Embedding of Python `bytes.join` / `str.join`: `sep.join(xs)`. -/
def bytes_join (sep : String) : List String → String
  | [] => ""
  | [x] => x
  | x :: y :: xs => x ++ sep ++ bytes_join sep (y :: xs)

/-- ASCII upper-casing of one character, as Python `str.upper` acts on the
header names the code sees. -/
def ascii_upper (c : Char) : Char :=
  if 'a' ≤ c ∧ c ≤ 'z' then Char.ofNat (c.toNat - 32) else c

/-- ASCII lower-casing of one character, as Python `str.lower` acts on the
header names the code sees. -/
def ascii_lower (c : Char) : Char :=
  if 'A' ≤ c ∧ c ≤ 'Z' then Char.ofNat (c.toNat + 32) else c

/-- Python `s.upper()` on a header name. -/
def py_upper (s : String) : String := ⟨s.data.map ascii_upper⟩

/-- Python `s.lower()` on a header name. -/
def py_lower (s : String) : String := ⟨s.data.map ascii_lower⟩

/-- Python `s.replace(old, new)` for single-character `old`/`new`, the only
form the code uses (`.replace('-', '_')` and `.replace('_', '-')`). -/
def py_replace_char (s : String) (old new : Char) : String :=
  ⟨s.data.map (fun c => if c = old then new else c)⟩

/-- Split a character list at the first occurrence of `sep`:
`(before, some after)` when `sep` occurs, `(whole, none)` otherwise. -/
def split_first (sep : Char) : List Char → List Char × Option (List Char)
  | [] => ([], none)
  | c :: cs =>
    if c = sep then ([], some cs)
    else
      let (pre, post) := split_first sep cs
      (c :: pre, post)

/-- Embedding of Python `s.partition(sep)` for a one-character separator,
restricted to the pieces the code uses: the part before the first occurrence
of `sep` and the part after it (empty when `sep` does not occur), as in
`url.partition(b'?')` in `RequestHandler.on_url`. -/
def str_partition (s : String) (sep : Char) : String × String :=
  match split_first sep s.data with
  | (pre, none) => (⟨pre⟩, "")
  | (pre, some post) => (⟨pre⟩, ⟨post⟩)

/-- `RequestHandler.on_url` (worker.py): from the raw target it stores
`RAW_URI`, and splits at the first `?` into `PATH_INFO` and `QUERY_STRING`.
Returns `(RAW_URI, PATH_INFO, QUERY_STRING)`. -/
def on_url (url : String) : String × String × String :=
  let (path, query) := str_partition url '?'
  (url, path, query)

/-- `RequestHandler.on_header` (worker.py), name normalization: upper-case the
name, replace `-` by `_`, and unless the result is `CONTENT_TYPE` or
`CONTENT_LENGTH` prefix it with `HTTP_`.  This is the key under which the
header value is stored in the flattened `environ` mapping. -/
def header_environ_key (name : String) : String :=
  let n := py_replace_char (py_upper name) '-' '_'
  if n = "CONTENT_TYPE" ∨ n = "CONTENT_LENGTH" then n else "HTTP_" ++ n

/-- The flattened `environ` mapping, modelled as an association list where a
later `environ[k] = v` assignment shadows earlier ones. -/
def environ_set (env : List (String × String)) (k v : String) :
    List (String × String) :=
  (k, v) :: env

/-- Lookup in the flattened `environ` mapping (latest assignment wins). -/
def environ_get (env : List (String × String)) (k : String) : Option String :=
  match env with
  | [] => none
  | (k0, v0) :: rest => if k0 = k then some v0 else environ_get rest k

/-- `RequestHandler.on_header` (worker.py): the effect of one header callback
on the flattened `environ` mapping. -/
def on_header (env : List (String × String)) (name value : String) :
    List (String × String) :=
  environ_set env (header_environ_key name) value

/-! Section: Master / control plane (server.py) -/

/-- The value of `os.WNOHANG` on Linux. -/
def os_WNOHANG : Nat := 1

/-- First line of `Server.reap_workers` (server.py line 170):
`options = 0 if not block else os.WNOHANG`. -/
def reap_options (block : Bool) : Nat :=
  if ¬ block then 0 else os_WNOHANG

/-- POSIX semantics of `os.waitpid(-1, options)`: the call blocks exactly when
no child has already exited and `options` does not contain `WNOHANG`. -/
def waitpid_blocks (exited_children : List Nat) (options : Nat) : Bool :=
  exited_children.isEmpty && options ≠ os_WNOHANG

/-- `Server.kill_workers` (server.py lines 142-148): iterates over
`list(self.workers.keys())` and sends the signal to every live worker process;
returns the list of pids signalled. -/
def kill_workers_targets (workers : List Nat) : List Nat :=
  workers

/-- `Server.maintain_worker_count` (server.py lines 185-193), kill side: with
`diff = worker_count - len(workers)`, when `diff < 0` it computes
`pids_to_kill = list(self.workers.keys())[:abs(diff)]` and then, for each
element of that list, calls `self.kill_workers(signal.SIGTERM)`.  The worker
map is modelled as the pid list in spawn (insertion) order; the result is the
concatenated list of pids that receive SIGTERM. -/
def maintain_worker_count_kills (workers : List Nat) (worker_count : Int) :
    List Nat :=
  let diff : Int := worker_count - workers.length
  if 0 < diff then []
  else if diff < 0 then
    let pids_to_kill := workers.take diff.natAbs
    (pids_to_kill.map fun _ => kill_workers_targets workers).flatten
  else []

/-- The mutable master state touched by `Server.__init__` and
`Server.check_signals` (server.py). -/
structure ServerState where
  worker_count : Int
  running : Bool
  hup_received : Bool
  quit_received : Bool
  ttin_received : Bool
  ttou_received : Bool
deriving Repr, DecidableEq

/-- `Server.__init__` (server.py lines 26-39): `worker_count` is taken from
`options.workers` unchanged, `running` is set, all signal flags cleared. -/
def server_init (options_workers : Int) : ServerState :=
  { worker_count := options_workers
    running := true
    hup_received := false
    quit_received := false
    ttin_received := false
    ttou_received := false }

/-- `Server.check_signals` (server.py lines 119-134): consume the pending
signal flags in order HUP, QUIT, TTIN, TTOU.  TTIN increments `worker_count`
by 1; TTOU decrements it by 1 only when it is greater than 1.  (The HUP branch
restarts workers without touching `worker_count`.) -/
def check_signals (st : ServerState) : ServerState :=
  let st := if st.hup_received then { st with hup_received := false } else st
  let st := if st.quit_received then
      { st with quit_received := false, running := false }
    else st
  let st := if st.ttin_received then
      { st with ttin_received := false, worker_count := st.worker_count + 1 }
    else st
  let st := if st.ttou_received then
      let st := { st with ttou_received := false }
      if 1 < st.worker_count then { st with worker_count := st.worker_count - 1 }
      else st
    else st
  st

/-- `Server.setup_sockets` (server.py lines 56-84), no supervisor handoff:
binds one listening socket per configured listen address and appends it to
`self.sockets`; the socket bound for the i-th address is modelled by the
index i. -/
def setup_sockets (listen : List String) : List Nat :=
  List.range listen.length

/-! Section: Worker (worker.py) -/

/-- The global names bound at module level in worker.py (its `import` lines
and `from ... import ...` lines, plus the guarded `setproctitle`).  The name
`signal` is not among them: worker.py never imports `signal`. -/
def worker_module_imports : List String :=
  ["os", "sys", "socket", "errno", "time", "io", "formatdate",
   "HttpRequestParser", "HttpParserError", "setproctitle"]

/-- The accept loop of `Worker.run` (worker.py lines 185-194):
`while self.requests_processed < self.options.max_requests:` accept a
connection from `self.sockets[0]`, increment the counter, handle it.  Returns
the socket (modelled by its fd) from which each successive connection is
accepted, in order; an empty socket list makes `self.sockets[0]` raise, so
nothing is accepted. -/
def worker_accept_loop (sockets : List Nat)
    (requests_processed max_requests : Nat) : List Nat :=
  match sockets with
  | [] => []
  | s0 :: _ =>
    if requests_processed < max_requests then
      s0 :: worker_accept_loop sockets (requests_processed + 1) max_requests
    else []
termination_by max_requests - requests_processed
decreasing_by omega

/-! Section: Request/response bridge (worker.py, RequestHandler) -/

/-- Per-request handler state: `response` models `self.response` (the empty
dict `{}` as `none`, a stored status plus ordered header list as `some`), and
`wire` the successive `sendall` payloads written to the client socket, in
order. -/
structure HandlerState where
  response : Option (String × List (String × String))
  wire : List String
deriving Repr, DecidableEq

/-- A body iterator returned by the application callable: the chunks it
yields, and whether it then raises an exception instead of finishing. -/
structure BodyIter where
  chunks : List String
  raises : Bool
deriving Repr, DecidableEq

/-- `RequestHandler.start_response` (worker.py lines 94-107) as a function of
the stored response: with a truthy `exc_info` it re-raises the passed
exception when `self.response` is already set (regardless of whether any body
bytes were written — the handler keeps no such flag), and otherwise falls
through; without `exc_info` a second call raises `AssertionError`.  When no
exception is raised the call stores the new status and header list. -/
def start_response
    (response : Option (String × List (String × String)))
    (status : String) (headers : List (String × String)) (exc_info : Bool) :
    Except String (Option (String × List (String × String))) :=
  if exc_info then
    if response.isSome then
      Except.error "exc_info exception re-raised"
    else
      Except.ok (some (status, headers))
  else if response.isSome then
    Except.error "start_response called a second time without exc_info"
  else
    Except.ok (some (status, headers))

/-- `RequestHandler.write_response` (worker.py lines 117-140): read the stored
status and headers (a missing response raises `KeyError`, modelled as an
escaping exception with nothing written), append a `Date` header when absent
and a `Server` header (mutating the stored header list), send the status
line, header lines and blank line in one `sendall`, then send each non-empty
body chunk.  (`has_cl` is computed by the source and never used.)  Returns
the updated state and whether the body iterator's exception escaped after
its chunks were sent. -/
def write_response (version now : String) (st : HandlerState)
    (resp_iter : BodyIter) : HandlerState × Bool :=
  match st.response with
  | none => (st, true)
  | some (status, headers) =>
    let has_date := headers.any fun h => py_lower h.1 = "date"
    let headers := if has_date then headers else headers ++ [("Date", now)]
    let headers := headers ++ [("Server", "Starman/" ++ version)]
    let header_data := ("HTTP/1.1 " ++ status) ::
      headers.map fun h => h.1 ++ ": " ++ h.2
    let head := bytes_join crlf header_data ++ crlf ++ crlf
    let sent := head :: resp_iter.chunks.filter fun c => ¬ c.isEmpty
    ({ response := some (status, headers), wire := st.wire ++ sent },
      resp_iter.raises)

/-- What one application call does, as the bridge observes it: either the
callable raises before calling `start_response`, or it calls `start_response`
once (without `exc_info`) with a status and header list and returns a body
iterator, which may itself raise partway through being drained. -/
inductive AppBehavior where
  | raisesBeforeStart : AppBehavior
  | returnsIter (status : String) (headers : List (String × String))
      (body : BodyIter) : AppBehavior
deriving Repr, DecidableEq

/-- `RequestHandler.handle_request` (worker.py lines 79-92): call the
application and write its response.  On any exception out of the application
or the body iteration: if `self.response` is still empty, first call
`start_response("500 Internal Server Error", [])`; then (in every case) call
`self.write_response([b"Internal Server Error"])`. -/
def handle_request (version now : String) (st : HandlerState)
    (app : AppBehavior) : HandlerState :=
  match app with
  | .raisesBeforeStart =>
    let st :=
      if st.response.isNone then
        { st with response := some ("500 Internal Server Error", []) }
      else st
    (write_response version now st ⟨["Internal Server Error"], false⟩).1
  | .returnsIter status headers body =>
    match start_response st.response status headers false with
    | .error _ =>
      let st :=
        if st.response.isNone then
          { st with response := some ("500 Internal Server Error", []) }
        else st
      (write_response version now st ⟨["Internal Server Error"], false⟩).1
    | .ok resp =>
      let st1 : HandlerState := { st with response := resp }
      let out := write_response version now st1 body
      if out.2 then
        (write_response version now out.1 ⟨["Internal Server Error"], false⟩).1
      else out.1

/-- Whether an exception escapes `RequestHandler.handle_request` (worker.py
lines 79-92).  The `except` branch swallows every exception from the
application call and the body iteration, so when the application returned a
body iterator the method returns normally and `RequestHandler.handle`
proceeds with its keep-alive loop instead of closing the connection.  Only
when the application raised before `resp_iter` was assigned does the
`finally` clause `if hasattr(resp_iter, 'close')` itself raise
(`UnboundLocalError` on the unassigned local). -/
def handle_request_escapes (app : AppBehavior) : Bool :=
  match app with
  | .raisesBeforeStart => true
  | .returnsIter _ _ _ => false

/-! Section: Connection handling loop (worker.py, RequestHandler.handle) -/

/-- The incremental parser fed by `self.parser.feed_data(data)`, specialised
to the body-less requests of the claims: a message is complete exactly when
its terminating blank line (`\r\n\r\n`) has been fed, at which point
`on_message_complete` fires and the request is dispatched.  Given the
accumulated unconsumed bytes, returns how many messages completed and the
bytes left unconsumed after the last completed message. -/
def parser_feed : List Char → Nat × List Char
  | '\r' :: '\n' :: '\r' :: '\n' :: rest =>
    let out := parser_feed rest
    (out.1 + 1, out.2)
  | c :: rest =>
    let out := parser_feed rest
    if out.1 = 0 then (0, c :: out.2) else out
  | [] => (0, [])

/-- `RequestHandler.handle` (worker.py lines 145-165): loop reading the socket
in chunks (the successive `recv` results are given as `chunks`; list
exhaustion models the peer closing, i.e. an empty read), feed each chunk to
the parser, and — `if self.options.disable_keepalive:` — break after the
first chunk.  Returns the total number of requests served on the
connection. -/
def handle_loop (disable_keepalive : Bool) :
    List (List Char) → List Char → Nat
  | [], _ => 0
  | chunk :: rest, buf =>
    let fed := parser_feed (buf ++ chunk)
    if disable_keepalive then fed.1
    else fed.1 + handle_loop disable_keepalive rest fed.2

/-- `Worker.run` (worker.py lines 175-196): before entering the accept loop it
executes `signal.signal(signal.SIGINT, signal.SIG_DFL)`.  The name `signal` is
looked up in the worker module globals; since worker.py never imports
`signal`, this raises `NameError` before any connection is accepted.  On the
(counterfactual) path where the name resolves, the accept loop runs and the
worker returns cleanly after it. -/
def worker_run (sockets : List Nat) (max_requests : Nat) :
    Except String (List Nat) :=
  if "signal" ∈ worker_module_imports then
    Except.ok (worker_accept_loop sockets 0 max_requests)
  else
    Except.error "NameError: name signal is not defined"

end Starman

namespace Starman

/-- C9: parsing `GET /path?x=1` with header `X-Test: v` yields decoded path
`/path`, query string `x=1`, and the flattened normalized header lookup
returns `v` for the canonical form of `X-Test` (which is `HTTP_X_TEST`). -/
theorem C9_request_roundtrip :
    (on_url "/path?x=1").2.1 = "/path" ∧
    (on_url "/path?x=1").2.2 = "x=1" ∧
    header_environ_key "X-Test" = "HTTP_X_TEST" ∧
    environ_get (on_header [] "X-Test" "v") "HTTP_X_TEST" = some "v" := by
  refine ⟨?_, ?_, ?_, ?_⟩ <;> decide

/-- Helper: the accept loop on a non-empty socket list accepts `n - k`
connections, all from the first socket. -/
theorem worker_accept_loop_eq (s0 : Nat) (rest : List Nat) (k n : Nat) :
    worker_accept_loop (s0 :: rest) k n = List.replicate (n - k) s0 := by
  suffices h : ∀ m k, n - k = m →
      worker_accept_loop (s0 :: rest) k n = List.replicate (n - k) s0 by
    exact h (n - k) k rfl
  intro m
  induction m with
  | zero =>
      intro k hm
      unfold worker_accept_loop
      have hk : ¬ k < n := by omega
      simp [hk, hm]
  | succ m ih =>
      intro k hm
      unfold worker_accept_loop
      have hk : k < n := by omega
      have h2 : n - (k + 1) = m := by omega
      rw [if_pos hk, ih (k + 1) h2, h2, hm, List.replicate_succ]

/-- C1 (code evaluation): with live workers `[101, 102, 103]` in spawn order
and desired count 2, the excess is `d = 1` and the oldest excess worker list
is `[101]`; but `maintain_worker_count` sends SIGTERM to all of
101, 102 and 103 — in particular to 103, which is not among the `d` oldest. -/
theorem C1_kill_not_only_oldest :
    maintain_worker_count_kills [101, 102, 103] 2 = [101, 102, 103] ∧
    [101, 102, 103].take ((2 - (3 : Int)).natAbs) = [101] ∧
    103 ∈ maintain_worker_count_kills [101, 102, 103] 2 ∧
    103 ∉ [101, 102, 103].take ((2 - (3 : Int)).natAbs) := by
  refine ⟨?_, ?_, ?_, ?_⟩ <;> decide

/-- C3 (code evaluation): `Worker.run` with `max_requests = 3` raises
`NameError` at `signal.signal(...)` before accepting anything, because
worker.py never imports `signal`; the accept loop itself, had the name
resolved, would serve exactly 3 connections and return. -/
theorem C3_worker_run_name_error :
    worker_run [4] 3 = Except.error "NameError: name signal is not defined" ∧
    (worker_accept_loop [4] 0 3).length = 3 := by
  constructor
  · rfl
  · rw [worker_accept_loop_eq]
    decide

/-- C4 (code evaluation): `Server.reap_workers` with `block=False` (the
supervision-tick call) computes `options = 0`, not `os.WNOHANG`; with those
options and no already-exited child, `os.waitpid(-1, options)` blocks. -/
theorem C4_reap_is_blocking :
    reap_options false = 0 ∧
    reap_options false ≠ os_WNOHANG ∧
    waitpid_blocks [] (reap_options false) = true := by
  refine ⟨?_, ?_, ?_⟩ <;> decide

/-- C6 (counterexample): `Server.__init__` copies `options.workers` into
`worker_count` with no floor, so construction with `workers = 0` violates
the invariant `desired worker count ≥ 1` immediately. -/
theorem C6_init_zero_violates_invariant :
    (server_init 0).worker_count = 0 ∧ ¬ 1 ≤ (server_init 0).worker_count := by
  constructor <;> decide

/-- C6 (amended): provided the configured initial worker count is at least 1,
the invariant `worker_count ≥ 1` holds after construction and is preserved by
every `check_signals` tick; a consumed TTIN (scale-up) adds exactly 1, a
consumed TTOU (scale-down) subtracts exactly 1 when the count exceeds 1 and
leaves the count at 1 when it equals 1. -/
theorem C6_desired_count_invariant (w : Int) (st : ServerState) :
    (1 ≤ w → 1 ≤ (server_init w).worker_count) ∧
    (1 ≤ st.worker_count → 1 ≤ (check_signals st).worker_count) ∧
    (st.ttin_received = true → st.ttou_received = false →
      (check_signals st).worker_count = st.worker_count + 1) ∧
    (st.ttou_received = true → st.ttin_received = false →
      1 < st.worker_count →
      (check_signals st).worker_count = st.worker_count - 1) ∧
    (st.ttou_received = true → st.ttin_received = false →
      st.worker_count = 1 → (check_signals st).worker_count = 1) := by
  obtain ⟨wc, r, hh, hq, hi, ho⟩ := st
  refine ⟨fun h => h, ?_, ?_, ?_, ?_⟩ <;>
    cases hh <;> cases hq <;> cases hi <;> cases ho <;>
      intros <;> simp_all [check_signals, server_init] <;>
        (try split_ifs) <;> (try simp_all) <;> omega

/-- C6 witness: the amended statement applied at concrete states, with every
hypothesis discharged: an initial count of 1; a TTIN tick on count 1; a TTOU
tick on count 2; a TTOU tick on count 1. -/
theorem C6_desired_count_invariant_witness :
    1 ≤ (server_init 1).worker_count ∧
    (check_signals (⟨1, true, false, false, true, false⟩ : ServerState)).worker_count = 1 + 1 ∧
    (check_signals (⟨2, true, false, false, false, true⟩ : ServerState)).worker_count = 2 - 1 ∧
    (check_signals (⟨1, true, false, false, false, true⟩ : ServerState)).worker_count = 1 := by
  have h1 := (C6_desired_count_invariant 1
    (⟨1, true, false, false, true, false⟩ : ServerState)).1 (by decide)
  have h2 := (C6_desired_count_invariant 1
    (⟨1, true, false, false, true, false⟩ : ServerState)).2.2.1 rfl rfl
  have h3 := (C6_desired_count_invariant 1
    (⟨2, true, false, false, false, true⟩ : ServerState)).2.2.2.1 rfl rfl (by decide)
  have h4 := (C6_desired_count_invariant 1
    (⟨1, true, false, false, false, true⟩ : ServerState)).2.2.2.2 rfl rfl rfl
  exact ⟨h1, h2, h3, h4⟩

/-- C10: with two or more configured listen endpoints the Master binds a
socket for each of them, yet the worker accept loop only ever accepts from
the first socket: the accepted-source list is `replicate n first`, and no
later endpoint's socket occurs in it. -/
theorem C10_worker_accepts_only_first_socket (listen : List String)
    (h : 2 ≤ listen.length) (n : Nat) :
    (setup_sockets listen).length = listen.length ∧
    worker_accept_loop (setup_sockets listen) 0 n = List.replicate n 0 ∧
    ∀ i, 1 ≤ i → i < listen.length →
      i ∉ worker_accept_loop (setup_sockets listen) 0 n := by
  obtain ⟨m, hm⟩ : ∃ m, listen.length = m + 1 := ⟨listen.length - 1, by omega⟩
  have hrest : setup_sockets listen = 0 :: (List.range m).map Nat.succ := by
    unfold setup_sockets
    rw [hm]
    exact List.range_succ_eq_map m
  refine ⟨by simp [setup_sockets], ?_, ?_⟩
  · rw [hrest, worker_accept_loop_eq]
    simp
  · intro i hi1 hi2 hmem
    rw [hrest, worker_accept_loop_eq] at hmem
    simp [List.eq_of_mem_replicate] at hmem
    obtain ⟨-, hi0⟩ := hmem
    omega

/-- C2 (counterexample): for an application that raises before calling
`start_response` on a fresh connection, the wire carries the synthesized
`500 Internal Server Error` head followed by the body bytes
`Internal Server Error` — the body is not empty, bytes do follow the blank
line ending the headers. -/
theorem C2_counterexample_body_not_empty :
    (handle_request "0.1.0" "Thu, 01 Jan 2026 00:00:00 GMT"
        ⟨none, []⟩ AppBehavior.raisesBeforeStart).wire =
      ["HTTP/1.1 500 Internal Server Error\r\nDate: Thu, 01 Jan 2026 00:00:00 GMT\r\nServer: Starman/0.1.0\r\n\r\n",
       "Internal Server Error"] ∧
    ¬ ("Internal Server Error" = "") := by
  constructor <;> decide

/-- C2 (amended): for every request whose application raises before
`start_response` while the stored response state is empty (the first request
of a connection), the wire is the synthesized `500 Internal Server Error`
head followed by the non-empty body `Internal Server Error`. -/
theorem C2_500_with_error_body (version now : String) :
    (handle_request version now ⟨none, []⟩ AppBehavior.raisesBeforeStart).wire =
      ["HTTP/1.1 500 Internal Server Error\r\n" ++ ("Date: " ++ (now ++
        ("\r\n" ++ ("Server: " ++ ("Starman/" ++ (version ++ "\r\n\r\n")))))),
       "Internal Server Error"] := by
  simp [handle_request, write_response, bytes_join, crlf, py_lower,
    String.append_assoc]
  decide

/-- C5 (counterexample): an application starts a `200 OK` response, the body
iterator yields `hello` (written to the wire) and then raises.  The handler
catches the exception and calls `write_response` again: the wire receives a
second status line, the headers again (with a duplicated `Server` header) and
the body `Internal Server Error` — further bytes, contradicting the claim
that nothing more is written. -/
theorem C5_counterexample_second_status_line :
    (handle_request "0.1.0" "D" ⟨none, []⟩
        (AppBehavior.returnsIter "200 OK" [] ⟨["hello"], true⟩)).wire =
      ["HTTP/1.1 200 OK\r\nDate: D\r\nServer: Starman/0.1.0\r\n\r\n",
       "hello",
       "HTTP/1.1 200 OK\r\nDate: D\r\nServer: Starman/0.1.0\r\nServer: Starman/0.1.0\r\n\r\n",
       "Internal Server Error"] := by
  decide

/-- C5 (amended): for every request whose application starts the response
with any status and header list and whose body iterator, after yielding any
chunks with some body bytes written to the wire, raises, the handler writes
further bytes: after the first head block and the written body chunks it
sends the stored status line and header block a second time (the stored list,
mutated by the first write, now carries a date and a duplicated `Server`
header) followed by the body `Internal Server Error`; and no exception
escapes `handle_request`, so the handler returns to the connection loop
rather than closing the connection at once. -/
theorem C5_midstream_raise_writes_second_response
    (version now status : String) (headers : List (String × String))
    (chunks : List String)
    (_hbody : chunks.filter (fun c => ¬ c.isEmpty) ≠ []) :
    (handle_request version now ⟨none, []⟩
        (AppBehavior.returnsIter status headers ⟨chunks, true⟩)).wire =
      (bytes_join crlf (("HTTP/1.1 " ++ status) ::
          (((if headers.any fun h => py_lower h.1 = "date" then headers
             else headers ++ [("Date", now)]) ++
            [("Server", "Starman/" ++ version)]).map
            fun h => h.1 ++ ": " ++ h.2)) ++ crlf ++ crlf) ::
        chunks.filter (fun c => ¬ c.isEmpty) ++
        [bytes_join crlf (("HTTP/1.1 " ++ status) ::
          ((((if headers.any fun h => py_lower h.1 = "date" then headers
              else headers ++ [("Date", now)]) ++
             [("Server", "Starman/" ++ version)]) ++
            [("Server", "Starman/" ++ version)]).map
            fun h => h.1 ++ ": " ++ h.2)) ++ crlf ++ crlf,
         "Internal Server Error"] ∧
    handle_request_escapes
        (AppBehavior.returnsIter status headers ⟨chunks, true⟩) = false := by
  refine ⟨?_, rfl⟩
  have hdate : py_lower "Date" = "date" := by decide
  cases hd : (headers.any fun h => py_lower h.1 = "date") with
  | true =>
      have h2 : ((headers ++ [("Server", "Starman/" ++ version)]).any
          fun h => py_lower h.1 = "date") = true := by
        simp [List.any_append, hd]
      simp +decide [handle_request, start_response, write_response, hd, h2,
        hdate]
  | false =>
      have h2 : (((headers ++ [("Date", now)]) ++
          [("Server", "Starman/" ++ version)]).any
          fun h => py_lower h.1 = "date") = true := by
        simp [List.any_append, hd, hdate]
      simp +decide [handle_request, start_response, write_response, hd, h2,
        hdate]

/-- C5 witness: the amended theorem applied to a concrete request (status
`200 OK`, no application headers, one non-empty body chunk `hello` written
before the raise), its some-body-bytes hypothesis discharged by
evaluation. -/
theorem C5_midstream_raise_writes_second_response_witness :
    (["hello"] : List String).filter (fun c => ¬ c.isEmpty) ≠ [] ∧
    handle_request_escapes
      (AppBehavior.returnsIter "200 OK" [] ⟨["hello"], true⟩) = false :=
  ⟨by decide, (C5_midstream_raise_writes_second_response "0.1.0" "D" "200 OK"
    [] ["hello"] (by decide)).2⟩

/-- C7 (counterexample): a second `start_response` call carrying `exc_info`,
made after a first call on a handler that has written no body bytes, raises
(re-raises the passed exception) instead of succeeding: the code gates the
re-raise on `self.response` being set, not on bytes having reached the
wire. -/
theorem C7_counterexample_excinfo_rejected :
    start_response (some ("200 OK", [])) "500 Internal Server Error" [] true =
      Except.error "exc_info exception re-raised" := rfl

/-- C7 (amended): `start_response` with `exc_info` succeeds and stores the
status/headers only when no previous call was made; whenever a first call has
been made it re-raises the passed exception, regardless of body bytes (the
handler does not track them), and a second call without `exc_info` raises
`AssertionError`. -/
theorem C7_excinfo_semantics (status : String)
    (headers : List (String × String))
    (r : String × List (String × String)) :
    start_response none status headers true =
      Except.ok (some (status, headers)) ∧
    start_response (some r) status headers true =
      Except.error "exc_info exception re-raised" ∧
    start_response (some r) status headers false =
      Except.error "start_response called a second time without exc_info" :=
  ⟨rfl, rfl, rfl⟩

/-- C8 (code evaluation): with keep-alive disabled, a request whose bytes
arrive in two `recv` chunks is never served — the handler breaks after the
first chunk with zero completed requests — while the same bytes in a single
chunk serve exactly one request.  This contradicts the code comment
(`break after one request if disabled`) and the claim. -/
theorem C8_chunked_request_not_served :
    handle_loop true ["GET /path HTTP/1.1\r\nHost: a\r\n".data, "\r\n".data]
      [] = 0 ∧
    handle_loop true ["GET /path HTTP/1.1\r\nHost: a\r\n\r\n".data] [] = 1 := by
  constructor <;> decide

/-- C10 witness: the theorem applied to the concrete endpoint list
`["0.0.0.0:5000", "0.0.0.0:5001"]` with 2 accepted connections. -/
theorem C10_worker_accepts_only_first_socket_witness :
    worker_accept_loop (setup_sockets ["0.0.0.0:5000", "0.0.0.0:5001"]) 0 2 =
      List.replicate 2 0 :=
  (C10_worker_accepts_only_first_socket ["0.0.0.0:5000", "0.0.0.0:5001"]
    (by decide) 2).2.1

end Starman
